import Mathlib

/-
Verification of the eth-wasm provider client (src/src/lib.rs).

The development shallowly embeds the request/response pipeline, the
error-code classification, the chain-identification registry and the
event handlers of the Rust source. JSON values are modelled by an
inductive type whose numbers are integers (every JSON number appearing
in the claims is an integer). JavaScript interop values that have
already been decoded to JSON are modelled directly as Json. Rust
panics (the expect calls and the checked narrowing conversions
as_u128 / as_u32 of the primitive-types crate, which panic when the
value does not fit) are modelled by Option: none is a panic/abort.
IEEE f64 arithmetic in balance is modelled by exact rational
arithmetic; separate conjuncts establish that the concrete values
involved are exactly representable in binary64, so the correctly
rounded IEEE operations agree with the rational model there.
-/

namespace EthWasm

/-- JSON values, as produced by deserialising a JsValue
(serde_json::Value with numbers restricted to integers). -/
inductive Json where
  | null : Json
  | bool (b : Bool) : Json
  | num (n : Int) : Json
  | str (s : String) : Json
  | arr (elems : List Json) : Json
  | obj (fields : List (String × Json)) : Json

/-- The wire shape of a provider error (struct ProviderRPCError,
src/src/lib.rs lines 250-256): integer code, optional message,
optional data, optional stack. -/
structure ProviderRPCError where
  code : Int
  message : Option String
  data : Option Json
  stack : Option Json

/-- The error taxonomy (enum Error, src/src/lib.rs lines 258-279). -/
inductive Error where
  | UserRejectedRequest (message : String) : Error
  | Unauthorised (message : String) : Error
  | UnsupportedMethod (message : String) : Error
  | Disconnected (message : String) : Error
  | ChainDisconnected (message : String) : Error
  | ProviderRpcError (code : Int) (message : Option String)
      (data : Option Json) (stack : Option Json) : Error
  | DeserialisationError (detail : String) : Error

/-- The chain registry (enum Chain, src/src/lib.rs lines 281-290).
The Other payload is the u32 chain id. -/
inductive Chain where
  | EthereumMainnet : Chain
  | EthereumRopstenTestNetwork : Chain
  | EthereumRinkebyTestNetwork : Chain
  | EthereumKovanTestNetwork : Chain
  | EthereumGoerliTestNetwork : Chain
  | PolygonMainnet : Chain
  | Other (id : Nat) : Chain
deriving DecidableEq

/-- Native token of a chain (enum Token, src/src/lib.rs lines 334-338). -/
inductive Token where
  | Ether : Token
  | Matic : Token
  | Other : Token
deriving DecidableEq

/-- Chain.token (src/src/lib.rs lines 292-304): the Ethereum networks
map to Ether, Polygon mainnet to Matic, anything else to Other. -/
def Chain.token : Chain → Token
  | Chain.EthereumMainnet => Token.Ether
  | Chain.EthereumRopstenTestNetwork => Token.Ether
  | Chain.EthereumRinkebyTestNetwork => Token.Ether
  | Chain.EthereumKovanTestNetwork => Token.Ether
  | Chain.EthereumGoerliTestNetwork => Token.Ether
  | Chain.PolygonMainnet => Token.Matic
  | Chain.Other _ => Token.Other

/-- Display for Chain (src/src/lib.rs lines 306-332). -/
def Chain.display : Chain → String
  | Chain.EthereumMainnet => "Ethereum Mainnet"
  | Chain.EthereumRopstenTestNetwork => "Ethereum Ropsten Testnet"
  | Chain.EthereumRinkebyTestNetwork => "Ethereum Rinkeby Testnet"
  | Chain.EthereumKovanTestNetwork => "Ethereum Kovan Testnet"
  | Chain.EthereumGoerliTestNetwork => "Ethereum Goerli Testnet"
  | Chain.PolygonMainnet => "Polygon Mainnet"
  | Chain.Other chain_id => "Other Network (" ++ toString chain_id ++ ")"

/-- Display for Token (src/src/lib.rs lines 340-354). -/
def Token.display : Token → String
  | Token.Ether => "ETH"
  | Token.Matic => "MATIC"
  | Token.Other => ""

/-- U128::as_u32 of the primitive-types crate, used by to_chain
(src/src/lib.rs line 217): checked narrowing that panics when the
value does not fit in 32 bits. -/
def as_u32 (n : Nat) : Option Nat :=
  if n < 2 ^ 32 then some n else none

/-- U256::as_u128 of the primitive-types crate, used by balance
(src/src/lib.rs line 78): checked narrowing that panics when the
value does not fit in 128 bits. -/
def as_u128 (n : Nat) : Option Nat :=
  if n < 2 ^ 128 then some n else none

/-- The match of Provider::to_chain (src/src/lib.rs lines 218-226)
on the already narrowed u32 chain id: the known chain table with
Other as the fallback. The Rust match on u32 literals is embedded as
the equivalent chain of equality tests. -/
def identify (id : Nat) : Chain :=
  if id = 1 then Chain.EthereumMainnet
  else if id = 3 then Chain.EthereumRopstenTestNetwork
  else if id = 4 then Chain.EthereumRinkebyTestNetwork
  else if id = 5 then Chain.EthereumGoerliTestNetwork
  else if id = 42 then Chain.EthereumKovanTestNetwork
  else if id = 137 then Chain.PolygonMainnet
  else Chain.Other id

/-- Provider::to_chain (src/src/lib.rs lines 216-227): narrow the
128-bit chain id to u32 (panicking when it does not fit), then match
against the known chain table. -/
def to_chain (chain_id : Nat) : Option Chain :=
  (as_u32 chain_id).map identify

/-- The numeric-normalization step of Provider::request
(src/src/lib.rs lines 164-167): a bare JSON number is rewritten as its
decimal string representation before the typed decode. -/
def normalize (v : Json) : Json :=
  match v with
  | Json.num number => Json.str (toString number)
  | v => v

/-- The error-classification arm of Provider::request
(src/src/lib.rs lines 179-211): a decoded ProviderRPCError is mapped
by code to a named variant with a default message when the raw message
is absent, and any other code to the generic variant carrying the raw
fields unchanged. The Rust match on i64 literals is embedded as the
equivalent chain of equality tests. -/
def classify (error : ProviderRPCError) : Error :=
  if error.code = 4001 then
    Error.UserRejectedRequest
      (error.message.getD "The user rejected the request.")
  else if error.code = 4100 then
    Error.Unauthorised
      (error.message.getD "The requested method and/or account has not been authorized by the user.")
  else if error.code = 4200 then
    Error.UnsupportedMethod
      (error.message.getD "The Provider does not support the requested method.")
  else if error.code = 4900 then
    Error.Disconnected
      (error.message.getD "The Provider is disconnected from all chains.")
  else if error.code = 4901 then
    Error.ChainDisconnected
      (error.message.getD "The Provider is not connected to the requested chain.")
  else
    Error.ProviderRpcError error.code error.message error.data error.stack

/-- Provider::request (src/src/lib.rs lines 147-214), parameterised by
the typed decoder for T and applied to the outcome of the provider
call: on success the raw JSON result is normalized and decoded into T,
a decode failure becoming DeserialisationError with the decoder
message; on failure the decoded raw error is classified. -/
def request {T : Type} (decode : Json → Except String T)
    (outcome : Except ProviderRPCError Json) : Except Error T :=
  match outcome with
  | Except.ok result =>
    match decode (normalize result) with
    | Except.ok value => Except.ok value
    | Except.error e => Except.error (Error.DeserialisationError e)
  | Except.error error => Except.error (classify error)

/-- Value of a single hexadecimal digit character, as accepted by the
uint deserialiser of the impl-serde crate (digits, lowercase and
uppercase letters). -/
def hexDigit (c : Char) : Option Nat :=
  if ('0' : Char) ≤ c ∧ c ≤ ('9' : Char) then some (c.toNat - ('0' : Char).toNat)
  else if ('a' : Char) ≤ c ∧ c ≤ ('f' : Char) then some (c.toNat - ('a' : Char).toNat + 10)
  else if ('A' : Char) ≤ c ∧ c ≤ ('F' : Char) then some (c.toNat - ('A' : Char).toNat + 10)
  else none

/-- Accumulate a hex string, most significant digit first. -/
def parseHexDigits : List Char → Nat → Option Nat
  | [], acc => some acc
  | c :: rest, acc =>
    match hexDigit c with
    | some d => parseHexDigits rest (acc * 16 + d)
    | none => none

/-- The characters of the string with a leading 0x removed when
present: the uint deserialiser of the impl-serde crate treats the 0x
marker as optional. -/
def hexBody (s : String) : List Char :=
  match s.data with
  | '0' :: 'x' :: rest => rest
  | l => l

/-- Deserialisation of a primitive-types unsigned integer of byteLen
bytes from a JSON value (the serde instance generated by impl-serde,
used for U256 and U128): the value must be a string holding at most
2 * byteLen hex digits after the optional 0x marker, at least one
digit; anything else is a decode error. Interior whitespace skipping
of the crate is not modelled (no claim involves it). -/
def deserializeUint (byteLen : Nat) (v : Json) : Except String Nat :=
  match v with
  | Json.str s =>
    let t := hexBody s
    if t.length = 0 ∨ 2 * byteLen < t.length then
      Except.error "invalid length, expected a hex string"
    else
      match parseHexDigits t 0 with
      | some n => Except.ok n
      | none => Except.error "invalid hex character"
  | _ => Except.error "invalid type, expected a hex string"

/-- Typed decode target of balance: a U256 (32 bytes). -/
def decodeU256 (v : Json) : Except String Nat :=
  deserializeUint 32 v

/-- Typed decode target of chain: a U128 (16 bytes). -/
def decodeU128 (v : Json) : Except String Nat :=
  deserializeUint 16 v

/-- Typed decode target of request_accounts: serde decode of a
Vec of String (an array whose every element is a string). -/
def decodeStringList (v : Json) : Except String (List String) :=
  match v with
  | Json.arr elems =>
    elems.mapM fun e =>
      match e with
      | Json.str s => Except.ok s
      | _ => Except.error "invalid type, expected a string"
  | _ => Except.error "invalid type, expected a sequence"

/-- Provider::request_accounts (src/src/lib.rs lines 65-69): the
request pipeline with method eth_requestAccounts decoding to a list of
account strings. -/
def request_accounts (outcome : Except ProviderRPCError Json) :
    Except Error (List String) :=
  request decodeStringList outcome

/-- The wei-to-unit conversion constant of Provider::balance
(src/src/lib.rs line 75), an f64 literal modelled exactly. -/
def CONVERSION_UNIT : ℚ := 1000000000000000000

/-- The arithmetic tail of Provider::balance (src/src/lib.rs lines
78-79): narrow the decoded U256 to u128 (panicking when it does not
fit), convert to f64 and divide by the conversion unit. The f64
arithmetic is modelled by exact rational arithmetic. -/
def wei_to_unit (b : Nat) : Option ℚ :=
  (as_u128 b).map fun v => (v : ℚ) / CONVERSION_UNIT

/-- Provider::balance (src/src/lib.rs lines 71-80) applied to the
outcome of the provider call: decode the response as a U256 through
the pipeline, then narrow and divide. none models the panic of the
narrowing. -/
def balance (outcome : Except ProviderRPCError Json) :
    Option (Except Error ℚ) :=
  match request decodeU256 outcome with
  | Except.ok b => (wei_to_unit b).map Except.ok
  | Except.error e => some (Except.error e)

/-- Provider::chain (src/src/lib.rs lines 82-85) applied to the
outcome of the provider call: decode the response as a U128 through
the pipeline, then map through to_chain. none models the panic of the
narrowing inside to_chain. -/
def chain (outcome : Except ProviderRPCError Json) :
    Option (Except Error Chain) :=
  match request decodeU128 outcome with
  | Except.ok chain_id => (to_chain chain_id).map Except.ok
  | Except.error e => some (Except.error e)

/-- First field of the given name in a JSON object (serde field
lookup; duplicate fields do not occur in the claims). -/
def getField (fields : List (String × Json)) (name : String) : Option Json :=
  (fields.find? fun p => p.fst = name).map Prod.snd

/-- Serde decode of an Option String field: missing field or JSON null
give none, a string gives some, anything else is a decode error. -/
def decodeOptString : Option Json → Except String (Option String)
  | none => Except.ok none
  | some Json.null => Except.ok none
  | some (Json.str s) => Except.ok (some s)
  | some _ => Except.error "invalid type, expected a string"

/-- Serde decode of an Option Value field: missing field or JSON null
give none, anything else is kept as is. -/
def decodeOptJson : Option Json → Option Json
  | none => none
  | some Json.null => none
  | some v => some v

/-- Serde decode of a JSON value into ProviderRPCError (the derived
Deserialize instance): an object with an integer code field in the i64
range, optional message string, optional data and stack values. -/
def decodeProviderRPCError (v : Json) : Option ProviderRPCError :=
  match v with
  | Json.obj fields =>
    match getField fields "code" with
    | some (Json.num n) =>
      if -(2 ^ 63) ≤ n ∧ n < 2 ^ 63 then
        match decodeOptString (getField fields "message") with
        | Except.ok m =>
          some
            { code := n
              message := m
              data := decodeOptJson (getField fields "data")
              stack := decodeOptJson (getField fields "stack") }
        | Except.error _ => none
      else none
    | _ => none
  | _ => none

/-- The listener installed by Provider::on_disconnect (src/src/lib.rs
lines 133-145): decode the event payload as ProviderRPCError
(panicking when the decode fails) and invoke the callback with the raw
error itself. -/
def on_disconnect_handler {α : Type} (f : ProviderRPCError → α)
    (payload : Json) : Option α :=
  (decodeProviderRPCError payload).map f

/-- The listener installed by Provider::on_chain_changed
(src/src/lib.rs lines 118-131): decode the event payload as a U128
chain id (panicking when the decode fails), map through to_chain and
invoke the callback. -/
def on_chain_changed_handler {α : Type} (f : Chain → α)
    (payload : Json) : Option α :=
  match decodeU128 payload with
  | Except.ok chain_id => (to_chain chain_id).map f
  | Except.error _ => none

/-- The payload of a connect event (struct ProviderConnectInfo,
src/src/lib.rs lines 236-240): a chain id, hex encoded as a
string. -/
structure ProviderConnectInfo where
  chain_id : String

/-- Serde decode of a JSON value into ProviderConnectInfo (the
derived Deserialize instance with camelCase renaming): an object
whose chainId field is a string. -/
def decodeProviderConnectInfo (v : Json) : Option ProviderConnectInfo :=
  match v with
  | Json.obj fields =>
    match getField fields "chainId" with
    | some (Json.str s) => some { chain_id := s }
    | _ => none
  | _ => none

/-- U128::from_str of the primitive-types crate, used by on_connect
(src/src/lib.rs line 97): hex parse of the string with an optional 0x
marker and at most 32 hex digits; anything else fails. -/
def from_str_u128 (s : String) : Option Nat :=
  let t := hexBody s
  if 32 < t.length then none
  else parseHexDigits t 0

/-- The listener installed by Provider::on_connect (src/src/lib.rs
lines 87-102): decode the event payload as ProviderConnectInfo, parse
its chainId string as a U128 (either failure panicking, modelled as
none), map through to_chain and invoke the callback. -/
def on_connect_handler {α : Type} (f : Chain → α)
    (payload : Json) : Option α :=
  match decodeProviderConnectInfo payload with
  | some info =>
    match from_str_u128 info.chain_id with
    | some chain_id => (to_chain chain_id).map f
    | none => none
  | none => none

/-- Exact representability of a rational as an IEEE binary64 value: a
dyadic rational with a mantissa below 2 ^ 53 and exponent in the
binary64 range. When the operands and the true result of an operation
satisfy this, the correctly rounded IEEE operation agrees with the
exact rational operation. -/
def float64Exact (q : ℚ) : Prop :=
  ∃ m : ℤ, ∃ e : ℤ,
    m.natAbs < 2 ^ 53 ∧ -1074 ≤ e ∧ e ≤ 971 ∧ q = (m : ℚ) * (2 : ℚ) ^ e

/-- C1: for every raw provider error with code in 4001, 4100, 4200,
4900, 4901 the request pipeline returns the matching named error
variant, using the raw message when present and the fixed default
message when the raw message is absent (Option.getD states exactly
this), and for every other integer code it returns the generic
provider error carrying the original code, message, data and stack
unchanged. -/
theorem request_classifies_error_codes {T : Type}
    (decode : Json → Except String T) (e : ProviderRPCError) :
    (e.code = 4001 → request decode (Except.error e) =
      Except.error (Error.UserRejectedRequest
        (e.message.getD "The user rejected the request."))) ∧
    (e.code = 4100 → request decode (Except.error e) =
      Except.error (Error.Unauthorised
        (e.message.getD "The requested method and/or account has not been authorized by the user."))) ∧
    (e.code = 4200 → request decode (Except.error e) =
      Except.error (Error.UnsupportedMethod
        (e.message.getD "The Provider does not support the requested method."))) ∧
    (e.code = 4900 → request decode (Except.error e) =
      Except.error (Error.Disconnected
        (e.message.getD "The Provider is disconnected from all chains."))) ∧
    (e.code = 4901 → request decode (Except.error e) =
      Except.error (Error.ChainDisconnected
        (e.message.getD "The Provider is not connected to the requested chain."))) ∧
    (e.code ≠ 4001 → e.code ≠ 4100 → e.code ≠ 4200 → e.code ≠ 4900 →
      e.code ≠ 4901 → request decode (Except.error e) =
      Except.error
        (Error.ProviderRpcError e.code e.message e.data e.stack)) := by
  refine ⟨?_, ?_, ?_, ?_, ?_, ?_⟩ <;> intros <;> simp_all [request, classify]

/-- Witness for C1: a failed call with raw error code 4001 and no
message yields UserRejectedRequest with the default message. -/
theorem request_classifies_error_codes_witness :
    request decodeStringList
        (Except.error { code := 4001, message := none, data := none, stack := none }) =
      Except.error (Error.UserRejectedRequest "The user rejected the request.") :=
  (request_classifies_error_codes decodeStringList
    { code := 4001, message := none, data := none, stack := none }).1 rfl

/-- C2: for every id in 1, 3, 4, 5, 42, 137 the chain identification
returns the matching named chain, and for every other id representable
in 32 bits it returns Other with that id, whose display name is the
string Other Network followed by the id in parentheses. -/
theorem to_chain_identifies_known_chains (id : Nat) (h : id < 2 ^ 32) :
    to_chain 1 = some Chain.EthereumMainnet ∧
    to_chain 3 = some Chain.EthereumRopstenTestNetwork ∧
    to_chain 4 = some Chain.EthereumRinkebyTestNetwork ∧
    to_chain 5 = some Chain.EthereumGoerliTestNetwork ∧
    to_chain 42 = some Chain.EthereumKovanTestNetwork ∧
    to_chain 137 = some Chain.PolygonMainnet ∧
    (id ≠ 1 → id ≠ 3 → id ≠ 4 → id ≠ 5 → id ≠ 42 → id ≠ 137 →
      to_chain id = some (Chain.Other id) ∧
      (Chain.Other id).display = "Other Network (" ++ toString id ++ ")") := by
  refine ⟨rfl, rfl, rfl, rfl, rfl, rfl, ?_⟩
  intro h1 h2 h3 h4 h5 h6
  refine ⟨?_, rfl⟩
  norm_num at h
  simp [to_chain, as_u32, identify, h, h1, h2, h3, h4, h5, h6]

/-- Witness for C2: the unknown id 2 maps to Other 2 with display
name Other Network (2). -/
theorem to_chain_identifies_known_chains_witness :
    to_chain 2 = some (Chain.Other 2) ∧
      (Chain.Other 2).display = "Other Network (2)" :=
  (to_chain_identifies_known_chains 2 (by norm_num)).2.2.2.2.2.2
    (by decide) (by decide) (by decide) (by decide) (by decide) (by decide)

/-- C3: a balance response encoded as the bare JSON number 0 and one
encoded as the hex string 0x0 both pass through the numeric
normalization of the pipeline and decode to the same 256-bit value
0. -/
theorem normalization_zero_roundtrip :
    request decodeU256 (Except.ok (Json.num 0)) = Except.ok 0 ∧
    request decodeU256 (Except.ok (Json.str "0x0")) = Except.ok 0 :=
  ⟨rfl, rfl⟩

/-- C4: whenever the typed decode of the normalized response fails
with a message, the request pipeline returns DeserialisationError
carrying that message; the pipeline is a total function, so no panic
or abort is possible on this path. -/
theorem request_decode_failure_is_typed {T : Type}
    (decode : Json → Except String T) (result : Json) (msg : String)
    (h : decode (normalize result) = Except.error msg) :
    request decode (Except.ok result) =
      Except.error (Error.DeserialisationError msg) := by
  simp [request, h]

/-- Witness for C4: a well-formed but wrong-shape response to
eth_requestAccounts, a JSON object instead of an array of strings,
yields DeserialisationError with the decoder message. -/
theorem request_decode_failure_is_typed_witness :
    request decodeStringList (Except.ok (Json.obj [("foo", Json.str "bar")])) =
      Except.error
        (Error.DeserialisationError "invalid type, expected a sequence") :=
  request_decode_failure_is_typed decodeStringList
    (Json.obj [("foo", Json.str "bar")]) "invalid type, expected a sequence" rfl

/-- C5: balance divides the decoded smallest-unit balance by the
fixed constant 10 ^ 18, and a decoded balance of 10 ^ 18 yields
exactly 1; both the operand 10 ^ 18 and the result 1 are exactly
representable binary64 values, so the correctly rounded IEEE division
of the source agrees with the exact rational model here. -/
theorem balance_wei_conversion :
    CONVERSION_UNIT = 10 ^ 18 ∧
    wei_to_unit 1000000000000000000 = some 1 ∧
    float64Exact 1000000000000000000 ∧
    float64Exact 1 := by
  refine ⟨by norm_num [CONVERSION_UNIT], ?_,
    ⟨3814697265625, 18, by norm_num, by norm_num, by norm_num, by norm_num⟩,
    ⟨1, 0, by norm_num, by norm_num, by norm_num, by norm_num⟩⟩
  simp [wei_to_unit, as_u128, CONVERSION_UNIT]

/-- C6: chain on the chainId response 0x1 yields Ethereum mainnet
whose token displays as ETH, and on 0x89, that is 137, yields Polygon
mainnet whose token displays as MATIC. -/
theorem chain_identifies_mainnet_and_polygon :
    chain (Except.ok (Json.str "0x1")) = some (Except.ok Chain.EthereumMainnet) ∧
    Chain.EthereumMainnet.token.display = "ETH" ∧
    chain (Except.ok (Json.str "0x89")) = some (Except.ok Chain.PolygonMainnet) ∧
    Chain.PolygonMainnet.token.display = "MATIC" :=
  ⟨rfl, rfl, rfl, rfl⟩

/-- C7: token is a pure total function of the chain family: every
Ethereum network variant maps to Ether, Polygon mainnet to Matic, and
Other to the Other token for every id, which displays as the empty
string. -/
theorem token_is_pure_total (id : Nat) :
    Chain.EthereumMainnet.token = Token.Ether ∧
    Chain.EthereumRopstenTestNetwork.token = Token.Ether ∧
    Chain.EthereumRinkebyTestNetwork.token = Token.Ether ∧
    Chain.EthereumKovanTestNetwork.token = Token.Ether ∧
    Chain.EthereumGoerliTestNetwork.token = Token.Ether ∧
    Chain.PolygonMainnet.token = Token.Matic ∧
    (Chain.Other id).token = Token.Other ∧
    Token.Other.display = "" :=
  ⟨rfl, rfl, rfl, rfl, rfl, rfl, rfl, rfl⟩

/-- C8: for every disconnect payload that decodes as a raw provider
error, the disconnect handler invokes the callback with that raw
error itself, for every callback; the classifier is not applied, as
the callback receives a ProviderRPCError and not a classified
Error. -/
theorem on_disconnect_delivers_raw_error {α : Type}
    (f : ProviderRPCError → α) (payload : Json) (e : ProviderRPCError)
    (h : decodeProviderRPCError payload = some e) :
    on_disconnect_handler f payload = some (f e) := by
  simp [on_disconnect_handler, h]

/-- Witness for C8: a disconnect payload with code 4001 is delivered
to the callback as the raw error shape, not as a named variant. -/
theorem on_disconnect_delivers_raw_error_witness :
    on_disconnect_handler (fun e => e) (Json.obj [("code", Json.num 4001)]) =
      some { code := 4001, message := none, data := none, stack := none } :=
  on_disconnect_delivers_raw_error (fun e => e)
    (Json.obj [("code", Json.num 4001)])
    { code := 4001, message := none, data := none, stack := none } rfl

/-- C9: balance narrows the decoded 256-bit value to 128 bits with a
narrowing that panics when the value does not fit: for every decoded
balance at least 2 ^ 128 the operation aborts, modelled as none, and
the total float conversion applies exactly to values below 2 ^ 128. -/
theorem balance_narrows_to_u128 (payload : Json) (b : Nat)
    (hdec : decodeU256 (normalize payload) = Except.ok b) :
    (2 ^ 128 ≤ b → balance (Except.ok payload) = none) ∧
    (b < 2 ^ 128 → balance (Except.ok payload) =
      some (Except.ok ((b : ℚ) / CONVERSION_UNIT))) := by
  constructor
  · intro hb
    norm_num at hb
    simp [balance, request, hdec, wei_to_unit, as_u128, Nat.not_lt.mpr hb]
  · intro hb
    norm_num at hb
    simp [balance, request, hdec, wei_to_unit, as_u128, hb]

/-- Witness for C9: a balance response of exactly 2 ^ 128 decodes but
aborts in the narrowing. -/
theorem balance_narrows_to_u128_witness :
    balance (Except.ok (Json.str "0x100000000000000000000000000000000")) =
      none :=
  (balance_narrows_to_u128
    (Json.str "0x100000000000000000000000000000000") (2 ^ 128) (by rfl)).1
    (by norm_num)

/-- C10: the chain identification narrows the 128-bit chain id to 32
bits with a narrowing that panics when the value does not fit: for
every chain id at least 2 ^ 32, to_chain aborts, modelled as none, and
so do the chain operation, the connect handler and the chainChanged
handler built on it, rather than truncating or returning Other; for
ids below 2 ^ 32 the identify mapping is total and all four return its
value. -/
theorem to_chain_narrows_to_u32 (cid : Nat) (payload connectPayload : Json)
    (info : ProviderConnectInfo)
    (hdec : decodeU128 payload = Except.ok cid)
    (hconn : decodeProviderConnectInfo connectPayload = some info)
    (hparse : from_str_u128 info.chain_id = some cid) :
    (2 ^ 32 ≤ cid →
      to_chain cid = none ∧
      chain (Except.ok payload) = none ∧
      on_connect_handler (fun c => c) connectPayload = none ∧
      on_chain_changed_handler (fun c => c) payload = none) ∧
    (cid < 2 ^ 32 →
      to_chain cid = some (identify cid) ∧
      chain (Except.ok payload) = some (Except.ok (identify cid)) ∧
      on_connect_handler (fun c => c) connectPayload = some (identify cid) ∧
      on_chain_changed_handler (fun c => c) payload = some (identify cid)) := by
  have hnorm : normalize payload = payload := by
    cases payload <;> first
      | rfl
      | simp [decodeU128, deserializeUint] at hdec
  constructor
  · intro hb
    norm_num at hb
    refine ⟨?_, ?_, ?_, ?_⟩
    · simp [to_chain, as_u32, Nat.not_lt.mpr hb]
    · simp [chain, request, hnorm, hdec, to_chain, as_u32, Nat.not_lt.mpr hb]
    · simp [on_connect_handler, hconn, hparse, to_chain, as_u32,
        Nat.not_lt.mpr hb]
    · simp [on_chain_changed_handler, hdec, to_chain, as_u32,
        Nat.not_lt.mpr hb]
  · intro hb
    norm_num at hb
    refine ⟨?_, ?_, ?_, ?_⟩
    · simp [to_chain, as_u32, hb]
    · simp [chain, request, hnorm, hdec, to_chain, as_u32, hb]
    · simp [on_connect_handler, hconn, hparse, to_chain, as_u32, hb]
    · simp [on_chain_changed_handler, hdec, to_chain, as_u32, hb]

/-- Witness for C10: the chain id 2 ^ 32 parses from the hex string
0x100000000 but aborts in the narrowing, in to_chain, in chain, in
the connect handler and in the chainChanged handler alike. -/
theorem to_chain_narrows_to_u32_witness :
    to_chain 4294967296 = none ∧
      chain (Except.ok (Json.str "0x100000000")) = none ∧
      on_connect_handler (fun c => c)
        (Json.obj [("chainId", Json.str "0x100000000")]) = none ∧
      on_chain_changed_handler (fun c => c) (Json.str "0x100000000") = none :=
  (to_chain_narrows_to_u32 4294967296 (Json.str "0x100000000")
    (Json.obj [("chainId", Json.str "0x100000000")])
    { chain_id := "0x100000000" } rfl rfl (by rfl)).1 (by norm_num)

end EthWasm
